import Mathlib

/-!
Shallow embedding of `src/file_picker.py` (`select_items`).

The function opens a Windows dialog to select files or folders. We model
the operating system as an oracle (`OSBehavior`) fixing the outcome of
every native call the function can make, and `select_items` returns the
Python-level outcome (a list of paths, or a raised exception), the exact
sequence of native OS API invocations, and the diagnostic messages
printed. Machinery embedded from the source and its library calls:

* `splitOn0` — Python `str.split("\0")` (keeps empty tokens, never
  returns an empty list);
* `splitdrive`, `os_path_join` — CPython `ntpath.splitdrive` /
  two-argument `ntpath.join`, the meaning of `os.path.join` on Windows;
* `bufferSlice` — `ctypes.create_unicode_buffer(buffer_size)` read back
  with `buffer[:]`: the characters the OS wrote, clamped to the buffer
  capacity and padded with U+0000 up to `buffer_size`.
-/

/-- The NUL character, separator of the Windows multi-select buffer. -/
def NUL : Char := Char.ofNat 0

/-- Python `s.split("\0")`: split on every NUL, keeping empty tokens.
Like the Python method, the result is never the empty list. -/
def splitOn0 : List Char → List (List Char)
  | [] => [[]]
  | c :: cs =>
    if c = NUL then [] :: splitOn0 cs
    else
      match splitOn0 cs with
      | [] => [[c]]
      | t :: ts => (c :: t) :: ts

/-- Windows path separators, `seps = "\\/"` in `ntpath`. -/
def isSep (c : Char) : Bool := c == '\\' || c == '/'

/-- Replace the alternative separator by the primary one, the
`p.replace(altsep, sep)` normalisation step of `ntpath.splitdrive`. -/
def normSeps (p : List Char) : List Char := p.map fun c => if c = '/' then '\\' else c

/-- Python `s.find(c, start)` restricted to a one-character needle,
returning `none` for `-1`. -/
def findFrom (c : Char) (l : List Char) (start : Nat) : Option Nat :=
  match List.findIdx? (fun x => x == c) (l.drop start) with
  | some i => some (start + i)
  | none => none

/-- CPython `ntpath.splitdrive`: split a Windows path into the drive
(letter-colon pair or UNC `\\host\mount` fragment) and the rest. -/
def splitdrive (p : List Char) : List Char × List Char :=
  if 2 ≤ p.length then
    let normp := normSeps p
    if normp.take 2 = ['\\', '\\'] ∧ (normp.drop 2).take 1 ≠ ['\\'] then
      match findFrom '\\' normp 2 with
      | none => ([], p)
      | some index =>
        match findFrom '\\' normp (index + 1) with
        | none => (p, [])
        | some index2 =>
          if index2 = index + 1 then ([], p)
          else (p.take index2, p.drop index2)
    else if (normp.drop 1).take 1 = [':'] then
      (p.take 2, p.drop 2)
    else ([], p)
  else ([], p)

/-- Does the path start with a separator (`p_path[0] in seps`)? -/
def startsWithSep : List Char → Bool
  | [] => false
  | c :: _ => isSep c

/-- Does the path end with a separator (`result_path[-1] in seps`)? -/
def endsWithSep (l : List Char) : Bool :=
  match l.getLast? with
  | some c => isSep c
  | none => false

/-- Python `s.lower()` character by character. -/
def lowerl (l : List Char) : List Char := l.map Char.toLower

/-- CPython `ntpath.join(path, p)` with exactly one extra component:
the meaning of `os.path.join(folder, f)` in the source. -/
def os_path_join (path p : List Char) : List Char :=
  let s := splitdrive path
  let t := splitdrive p
  let step : List Char × List Char :=
    if startsWithSep t.2 then
      (if t.1 ≠ [] ∨ s.1 = [] then t.1 else s.1, t.2)
    else if t.1 ≠ [] ∧ t.1 ≠ s.1 then
      if lowerl t.1 ≠ lowerl s.1 then (t.1, t.2)
      else (t.1, if s.2 ≠ [] ∧ ¬ endsWithSep s.2 then s.2 ++ '\\' :: t.2 else s.2 ++ t.2)
    else
      (s.1, if s.2 ≠ [] ∧ ¬ endsWithSep s.2 then s.2 ++ '\\' :: t.2 else s.2 ++ t.2)
  if step.2 ≠ [] ∧ ¬ startsWithSep step.2 ∧ step.1 ≠ [] ∧ step.1.getLast? ≠ some ':' then
    step.1 ++ '\\' :: step.2
  else
    step.1 ++ step.2

/-- Reading `buffer[:]` after the OS wrote `written` into a
`create_unicode_buffer(n)`: the write is clamped to the capacity and the
untouched remainder of the buffer still holds its initial NULs. -/
def bufferSlice (n : Nat) (written : List Char) : List Char :=
  written.take n ++ List.replicate (n - written.length) NUL

/-- Oracle fixing the behaviour of every native call one invocation of
`select_items` can make: the PIDL returned by `SHBrowseForFolderW`
(`none` for a NULL pointer), the boolean returned by
`SHGetPathFromIDListW` (the source discards it), the buffer contents
after that call, the success flag of `GetOpenFileNameW`, the buffer
contents after it, and the `CommDlgExtendedError` code. -/
structure OSBehavior where
  shBrowseResult : Option Nat
  shGetPathRet : Bool
  folderWrite : List Char
  openFileOk : Bool
  fileWrite : List Char
  extErrCode : Nat
deriving DecidableEq

/-- Native OS API invocations performed by `select_items`, in order. -/
inductive OSCall where
  | coInit
  | shBrowse
  | shGetPath
  | coTaskMemFree
  | coUninit
  | getOpenFileName
  | commDlgExtErr
deriving DecidableEq

/-- Python exceptions `select_items` can raise: the explicit
`ValueError` for a bad `select_mode`, the `ValueError` raised by
`ctypes.create_unicode_buffer` on a negative length, and the
`IndexError` from `result[0]` on an empty list. -/
inductive PyError where
  | invalidModeValueError
  | negLengthValueError
  | indexError
deriving DecidableEq

/-- Diagnostics printed by `select_items`: the canceled note and the
message carrying the `CommDlgExtendedError` code. -/
inductive Diag where
  | canceled
  | errorCode (code : Nat)
deriving DecidableEq

instance exceptDecEq {ε α : Type} [DecidableEq ε] [DecidableEq α] :
    DecidableEq (Except ε α) := fun a b =>
  match a, b with
  | .ok x, .ok y => decidable_of_iff (x = y) (by simp)
  | .error x, .error y => decidable_of_iff (x = y) (by simp)
  | .ok _, .error _ => isFalse (by simp)
  | .error _, .ok _ => isFalse (by simp)

/-- Observable outcome of one call: the returned value or raised
exception, the trace of native OS API invocations, and the printed
diagnostics. -/
structure CallResult where
  ret : Except PyError (List (List Char))
  osTrace : List OSCall
  printed : List Diag
deriving DecidableEq

/-- Embedding of `select_items(select_mode, buffer_size)` from
`src/file_picker.py`, line by line:

* `buffer = ctypes.create_unicode_buffer(buffer_size)` runs before any
  mode dispatch and raises `ValueError` on a negative size;
* `folder` mode: `CoInitialize`, `SHBrowseForFolderW`; a non-NULL PIDL
  leads to `SHGetPathFromIDListW` (return value unused),
  `result = buffer[:].split("\0")`, `CoTaskMemFree`, `CoUninitialize`,
  `return [result[0]]`; a NULL PIDL leads to `CoUninitialize`,
  `return []`;
* otherwise the `OPENFILENAME` structure is set up; a mode other than
  `file` / `multi-files` raises `ValueError` before `GetOpenFileNameW`
  is called;
* `file` / `multi-files`: `GetOpenFileNameW`; on success the buffer is
  split on NUL with empty tokens dropped; more than one token joins the
  first (the directory) to each later one, exactly one token is returned
  as is, zero tokens make `result[0]` raise `IndexError`; on failure
  `CommDlgExtendedError` is fetched, a diagnostic printed, `[]`
  returned. -/
def select_items (os : OSBehavior) (select_mode : String) (buffer_size : Int) : CallResult :=
  if buffer_size < 0 then
    ⟨.error .negLengthValueError, [], []⟩
  else
    let n := buffer_size.toNat
    if select_mode = "folder" then
      match os.shBrowseResult with
      | some _ =>
        let result := splitOn0 (bufferSlice n os.folderWrite)
        ⟨.ok [result.headD []],
         [.coInit, .shBrowse, .shGetPath, .coTaskMemFree, .coUninit], []⟩
      | none =>
        ⟨.ok [], [.coInit, .shBrowse, .coUninit], []⟩
    else if select_mode = "file" ∨ select_mode = "multi-files" then
      if os.openFileOk then
        match (splitOn0 (bufferSlice n os.fileWrite)).filter (fun t => !t.isEmpty) with
        | [] => ⟨.error .indexError, [.getOpenFileName], []⟩
        | [single] => ⟨.ok [single], [.getOpenFileName], []⟩
        | folder :: rest =>
          ⟨.ok ((rest.filter (fun f => !f.isEmpty)).map (os_path_join folder)),
           [.getOpenFileName], []⟩
      else if os.extErrCode = 0 then
        ⟨.ok [], [.getOpenFileName, .commDlgExtErr], [.canceled]⟩
      else
        ⟨.ok [], [.getOpenFileName, .commDlgExtErr], [.errorCode os.extErrCode]⟩
    else
      ⟨.error .invalidModeValueError, [], []⟩

/-- Python `split` never returns an empty list. -/
theorem splitOn0_ne_nil (l : List Char) : splitOn0 l ≠ [] := by
  induction l with
  | nil => simp [splitOn0]
  | cons c cs ih =>
    by_cases h : c = NUL
    · simp [splitOn0, h]
    · simp only [splitOn0, if_neg h]
      cases hs : splitOn0 cs <;> simp

/-- Appending NULs to the split input only appends empty tokens. -/
theorem splitOn0_append_nuls (l : List Char) (k : Nat) :
    splitOn0 (l ++ List.replicate k NUL)
      = splitOn0 l ++ List.replicate k ([] : List Char) := by
  induction l with
  | nil =>
    induction k with
    | zero => simp
    | succ k ihk =>
      simp only [List.nil_append, List.replicate_succ, splitOn0, if_pos rfl] at ihk ⊢
      simp [ihk, splitOn0]
  | cons c cs ih =>
    by_cases h : c = NUL
    · simp [splitOn0, h, ih]
    · simp only [List.cons_append, splitOn0, if_neg h]
      cases hs : splitOn0 cs with
      | nil => exact absurd hs (splitOn0_ne_nil cs)
      | cons t ts => simp [ih, hs]

/-- The first token of the split is the text before the first NUL. -/
theorem headD_splitOn0 (l : List Char) :
    (splitOn0 l).headD [] = l.takeWhile (fun c => decide (c ≠ NUL)) := by
  induction l with
  | nil => simp [splitOn0]
  | cons c cs ih =>
    by_cases h : c = NUL
    · simp [splitOn0, h, List.takeWhile_cons]
    · simp only [splitOn0, if_neg h]
      cases hs : splitOn0 cs with
      | nil => exact absurd hs (splitOn0_ne_nil cs)
      | cons t ts =>
        rw [hs] at ih
        simp only [List.headD_cons] at ih
        simp [List.takeWhile_cons, h, ih]

/-- Splitting a NUL-free text yields that text as the only token. -/
theorem splitOn0_no_nul (l : List Char) (h : ∀ c ∈ l, c ≠ NUL) :
    splitOn0 l = [l] := by
  induction l with
  | nil => rfl
  | cons c cs ih =>
    have hc : c ≠ NUL := h c (by simp)
    have ih2 := ih fun x hx => h x (by simp [hx])
    simp [splitOn0, hc, ih2]

/-- Splitting an all-NUL text yields no non-empty token. -/
theorem filter_splitOn0_all_nul (l : List Char) (h : ∀ c ∈ l, c = NUL) :
    (splitOn0 l).filter (fun t => !t.isEmpty) = [] := by
  induction l with
  | nil => rfl
  | cons c cs ih =>
    have hc : c = NUL := h c (by simp)
    simp [splitOn0, hc, ih fun x hx => h x (by simp [hx])]

/-- The NUL padding of the buffer contributes no non-empty token: the
non-empty tokens are those of the clamped OS write. -/
theorem filter_splitOn0_bufferSlice (n : Nat) (w : List Char) :
    (splitOn0 (bufferSlice n w)).filter (fun t => !t.isEmpty)
      = (splitOn0 (w.take n)).filter (fun t => !t.isEmpty) := by
  rw [bufferSlice, splitOn0_append_nuls, List.filter_append]
  have : (List.replicate (n - w.length) ([] : List Char)).filter
      (fun t => !t.isEmpty) = [] := by
    apply List.filter_eq_nil_iff.mpr
    intro a ha
    rw [List.eq_of_mem_replicate ha]
    simp
  rw [this, List.append_nil]

/-- Evaluation of the call on a negative buffer size: the
`create_unicode_buffer` line fails before any dispatch. -/
theorem select_items_neg_size (os : OSBehavior) (m : String) (bs : Int) (h : bs < 0) :
    select_items os m bs = ⟨.error .negLengthValueError, [], []⟩ := by
  simp [select_items, if_pos h]

/-- Evaluation of the folder branch. -/
theorem select_items_folder_eval (os : OSBehavior) (bs : Int) (hbs : 0 ≤ bs) :
    select_items os "folder" bs =
      match os.shBrowseResult with
      | some _ =>
        ⟨.ok [(splitOn0 (bufferSlice bs.toNat os.folderWrite)).headD []],
         [.coInit, .shBrowse, .shGetPath, .coTaskMemFree, .coUninit], []⟩
      | none => ⟨.ok [], [.coInit, .shBrowse, .coUninit], []⟩ := by
  simp only [select_items, if_neg (not_lt.mpr hbs), if_pos rfl, if_true]

/-- Evaluation of the file / multi-files branch. -/
theorem select_items_file_eval (os : OSBehavior) (m : String) (bs : Int)
    (hbs : 0 ≤ bs) (hm : m = "file" ∨ m = "multi-files") :
    select_items os m bs =
      if os.openFileOk then
        match (splitOn0 (bufferSlice bs.toNat os.fileWrite)).filter
            (fun t => !t.isEmpty) with
        | [] => ⟨.error .indexError, [.getOpenFileName], []⟩
        | [single] => ⟨.ok [single], [.getOpenFileName], []⟩
        | folder :: rest =>
          ⟨.ok ((rest.filter (fun f => !f.isEmpty)).map (os_path_join folder)),
           [.getOpenFileName], []⟩
      else if os.extErrCode = 0 then
        ⟨.ok [], [.getOpenFileName, .commDlgExtErr], [.canceled]⟩
      else
        ⟨.ok [], [.getOpenFileName, .commDlgExtErr], [.errorCode os.extErrCode]⟩ := by
  have hmf : m ≠ "folder" := by rcases hm with h | h <;> subst h <;> decide
  simp only [select_items, if_neg (not_lt.mpr hbs), if_neg hmf, if_pos hm]

/-- Evaluation of the invalid-mode branch. -/
theorem select_items_invalid_eval (os : OSBehavior) (m : String) (bs : Int)
    (hbs : 0 ≤ bs) (h1 : m ≠ "folder") (h2 : m ≠ "file") (h3 : m ≠ "multi-files") :
    select_items os m bs = ⟨.error .invalidModeValueError, [], []⟩ := by
  have hor : ¬ (m = "file" ∨ m = "multi-files") := by simp [h2, h3]
  simp only [select_items, if_neg (not_lt.mpr hbs), if_neg h1, if_neg hor]

/-- C1: in multi-files mode, when the dialog succeeds and the buffer
holds more than one null-separated non-empty token, the first token is
the shared directory and each subsequent token, in buffer order, is
returned joined to it with `os.path.join`. -/
theorem C1_multi_files_join (os : OSBehavior) (bs : Int) (d f : List Char)
    (rest : List (List Char)) (hbs : 0 ≤ bs) (hok : os.openFileOk = true)
    (hfil : (splitOn0 (bufferSlice bs.toNat os.fileWrite)).filter
        (fun t => !t.isEmpty) = d :: f :: rest) :
    (select_items os "multi-files" bs).ret = .ok ((f :: rest).map (os_path_join d)) := by
  have hmem : ∀ x ∈ f :: rest, (!x.isEmpty) = true := by
    intro x hx
    have hx2 : x ∈ (splitOn0 (bufferSlice bs.toNat os.fileWrite)).filter
        (fun t => !t.isEmpty) := by
      rw [hfil]
      exact List.mem_cons_of_mem _ hx
    exact (List.mem_filter.mp hx2).2
  rw [select_items_file_eval os "multi-files" bs hbs (Or.inr rfl), if_pos hok, hfil]
  simp [List.filter_eq_self.mpr hmem]

/-- C1 witness: the simulated buffer of the spec evaluated concretely
yields exactly the two joined paths. -/
theorem C1_multi_files_join_witness :
    (select_items ⟨none, false, [], true, "C:\\Dir\x00a.txt\x00b.txt\x00\x00".data, 0⟩
        "multi-files" 32).ret
      = .ok ["C:\\Dir\\a.txt".data, "C:\\Dir\\b.txt".data] := by
  have h := C1_multi_files_join
    ⟨none, false, [], true, "C:\\Dir\x00a.txt\x00b.txt\x00\x00".data, 0⟩ 32
    "C:\\Dir".data "a.txt".data ["b.txt".data] (by decide) rfl (by decide)
  rw [h]; decide

/-- C2: any `select_mode` other than folder, file and multi-files makes
the call raise the invalid-mode `ValueError`, with an empty trace of
native OS API invocations. -/
theorem C2_invalid_mode (os : OSBehavior) (m : String) (bs : Int) (hbs : 0 ≤ bs)
    (h1 : m ≠ "folder") (h2 : m ≠ "file") (h3 : m ≠ "multi-files") :
    (select_items os m bs).ret = .error .invalidModeValueError
      ∧ (select_items os m bs).osTrace = [] := by
  rw [select_items_invalid_eval os m bs hbs h1 h2 h3]
  exact ⟨rfl, rfl⟩

/-- C2 witness: the mode string of the spec example. -/
theorem C2_invalid_mode_witness :
    (select_items ⟨none, false, [], false, [], 0⟩ "invalid" 8192).ret
        = .error .invalidModeValueError
      ∧ (select_items ⟨none, false, [], false, [], 0⟩ "invalid" 8192).osTrace = [] :=
  C2_invalid_mode ⟨none, false, [], false, [], 0⟩ "invalid" 8192
    (by decide) (by decide) (by decide) (by decide)

/-- C3: cancellation returns the empty list without raising, in every
valid mode: a NULL PIDL in folder mode; a failed `GetOpenFileNameW` with
extended error code zero in file and multi-files modes. -/
theorem C3_cancel_empty (os : OSBehavior) (bs : Int) (hbs : 0 ≤ bs) :
    (os.shBrowseResult = none → (select_items os "folder" bs).ret = .ok [])
    ∧ (os.openFileOk = false → os.extErrCode = 0 →
        (select_items os "file" bs).ret = .ok []
        ∧ (select_items os "multi-files" bs).ret = .ok []) := by
  constructor
  · intro hn
    rw [select_items_folder_eval os bs hbs, hn]
  · intro hf hz
    constructor
    · rw [select_items_file_eval os "file" bs hbs (Or.inl rfl), hf, hz]
      simp
    · rw [select_items_file_eval os "multi-files" bs hbs (Or.inr rfl), hf, hz]
      simp

/-- C3 witness: a canceling oracle in all three modes. -/
theorem C3_cancel_empty_witness :
    (select_items ⟨none, false, [], false, [], 0⟩ "folder" 8).ret = .ok []
    ∧ (select_items ⟨none, false, [], false, [], 0⟩ "file" 8).ret = .ok []
    ∧ (select_items ⟨none, false, [], false, [], 0⟩ "multi-files" 8).ret = .ok [] := by
  have h := C3_cancel_empty ⟨none, false, [], false, [], 0⟩ 8 (by decide)
  exact ⟨h.1 rfl, (h.2 rfl rfl).1, (h.2 rfl rfl).2⟩

/-- C7: in file and multi-files modes, a successful dialog whose buffer
holds exactly one non-empty token returns that token unchanged as the
single full path. -/
theorem C7_single_token (os : OSBehavior) (m : String) (bs : Int) (t : List Char)
    (hbs : 0 ≤ bs) (hm : m = "file" ∨ m = "multi-files") (hok : os.openFileOk = true)
    (hfil : (splitOn0 (bufferSlice bs.toNat os.fileWrite)).filter
        (fun x => !x.isEmpty) = [t]) :
    (select_items os m bs).ret = .ok [t] := by
  rw [select_items_file_eval os m bs hbs hm, if_pos hok, hfil]

/-- C7 witness: the simulated single-selection buffer of the spec, in
both modes. -/
theorem C7_single_token_witness :
    (select_items ⟨none, false, [], true, "C:\\Dir\\a.txt\x00\x00".data, 0⟩
        "file" 32).ret = .ok ["C:\\Dir\\a.txt".data]
    ∧ (select_items ⟨none, false, [], true, "C:\\Dir\\a.txt\x00\x00".data, 0⟩
        "multi-files" 32).ret = .ok ["C:\\Dir\\a.txt".data] :=
  ⟨C7_single_token ⟨none, false, [], true, "C:\\Dir\\a.txt\x00\x00".data, 0⟩
      "file" 32 "C:\\Dir\\a.txt".data (by decide) (Or.inl rfl) rfl (by decide),
   C7_single_token ⟨none, false, [], true, "C:\\Dir\\a.txt\x00\x00".data, 0⟩
      "multi-files" 32 "C:\\Dir\\a.txt".data (by decide) (Or.inr rfl) rfl (by decide)⟩

/-- C8: in file and multi-files modes, a successful dialog whose buffer
holds no non-null character leaves `result` empty, so `result[0]` raises
`IndexError` instead of returning a list. -/
theorem C8_all_nul_index_error (os : OSBehavior) (m : String) (bs : Int)
    (hbs : 0 ≤ bs) (hm : m = "file" ∨ m = "multi-files") (hok : os.openFileOk = true)
    (hall : ∀ c ∈ os.fileWrite, c = NUL) :
    (select_items os m bs).ret = .error .indexError := by
  have hall2 : ∀ c ∈ bufferSlice bs.toNat os.fileWrite, c = NUL := by
    intro c hc
    rcases List.mem_append.mp hc with h | h
    · exact hall c (List.take_subset _ _ h)
    · exact List.eq_of_mem_replicate h
  rw [select_items_file_eval os m bs hbs hm, if_pos hok,
      filter_splitOn0_all_nul _ hall2]

/-- C8 witness: an all-NUL buffer in file mode. -/
theorem C8_all_nul_index_error_witness :
    (select_items ⟨none, false, [], true, [NUL, NUL], 0⟩ "file" 8).ret
      = .error .indexError :=
  C8_all_nul_index_error ⟨none, false, [], true, [NUL, NUL], 0⟩ "file" 8
    (by decide) (Or.inl rfl) rfl (by decide)

/-- C4: when the dialog call fails with a non-zero extended error code
(the non-cancellation failure, which the code can observe only on the
`GetOpenFileNameW` path used by file and multi-files modes), the code is
fetched via `CommDlgExtendedError`, surfaced in the printed diagnostic,
and the call still returns the empty list rather than raising. -/
theorem C4_failure_diagnostic (os : OSBehavior) (m : String) (bs : Int)
    (hbs : 0 ≤ bs) (hm : m = "file" ∨ m = "multi-files")
    (hfail : os.openFileOk = false) (hcode : os.extErrCode ≠ 0) :
    (select_items os m bs).ret = .ok []
      ∧ (select_items os m bs).printed = [.errorCode os.extErrCode]
      ∧ OSCall.commDlgExtErr ∈ (select_items os m bs).osTrace := by
  rw [select_items_file_eval os m bs hbs hm, if_neg (by simp [hfail]), if_neg hcode]
  exact ⟨rfl, rfl, by simp⟩

/-- C4 witness: a failing oracle with extended error code 5. -/
theorem C4_failure_diagnostic_witness :
    (select_items ⟨none, false, [], false, [], 5⟩ "file" 8).ret = .ok []
      ∧ (select_items ⟨none, false, [], false, [], 5⟩ "file" 8).printed
          = [.errorCode 5]
      ∧ OSCall.commDlgExtErr
          ∈ (select_items ⟨none, false, [], false, [], 5⟩ "file" 8).osTrace :=
  C4_failure_diagnostic ⟨none, false, [], false, [], 5⟩ "file" 8
    (by decide) (Or.inl rfl) rfl (by decide)

/-- C5: in folder mode the COM subsystem is initialized exactly once,
first of all native calls, and uninitialized exactly once, last of all
native calls, on both the success and the cancellation path; no other
mode ever initializes it. -/
theorem C5_com_scoped (os : OSBehavior) (bs : Int) (hbs : 0 ≤ bs) :
    ((select_items os "folder" bs).osTrace.count .coInit = 1
      ∧ (select_items os "folder" bs).osTrace.count .coUninit = 1
      ∧ (select_items os "folder" bs).osTrace.head? = some .coInit
      ∧ (select_items os "folder" bs).osTrace.getLast? = some .coUninit)
    ∧ (∀ m : String, m ≠ "folder" →
        (select_items os m bs).osTrace.count .coInit = 0) := by
  constructor
  · rw [select_items_folder_eval os bs hbs]
    cases os.shBrowseResult <;> exact ⟨rfl, rfl, rfl, rfl⟩
  · intro m hm
    by_cases h2 : m = "file" ∨ m = "multi-files"
    · rw [select_items_file_eval os m bs hbs h2]
      split
      · split <;> rfl
      · split <;> rfl
    · push_neg at h2
      rw [select_items_invalid_eval os m bs hbs hm h2.1 h2.2]
      rfl

/-- C5 witness: both folder paths and the two other modes, concretely. -/
theorem C5_com_scoped_witness :
    (select_items ⟨none, false, [], false, [], 0⟩ "folder" 8).osTrace.count
        OSCall.coInit = 1
    ∧ (select_items ⟨none, false, [], false, [], 0⟩ "folder" 8).osTrace.count
        OSCall.coUninit = 1
    ∧ (select_items ⟨none, false, [], false, [], 0⟩ "file" 8).osTrace.count
        OSCall.coInit = 0 := by
  have h := C5_com_scoped ⟨none, false, [], false, [], 0⟩ 8 (by decide)
  exact ⟨h.1.1, h.1.2.1, h.2 "file" (by decide)⟩

/-- C6: in folder mode a non-NULL PIDL is resolved to its path, which is
returned as a one-element list, and `CoTaskMemFree` is invoked exactly
once before returning. -/
theorem C6_folder_success (os : OSBehavior) (bs : Int) (p : Nat) (path : List Char)
    (hbs : 0 ≤ bs) (hp : os.shBrowseResult = some p) (hw : os.folderWrite = path)
    (hnonul : ∀ c ∈ path, c ≠ NUL) (hlen : path.length ≤ bs.toNat) :
    (select_items os "folder" bs).ret = .ok [path]
      ∧ (select_items os "folder" bs).osTrace.count .coTaskMemFree = 1 := by
  rw [select_items_folder_eval os bs hbs, hp]
  refine ⟨?_, rfl⟩
  have h2 : splitOn0 (bufferSlice bs.toNat os.folderWrite)
      = [path] ++ List.replicate (bs.toNat - os.folderWrite.length) [] := by
    rw [hw, bufferSlice, List.take_of_length_le hlen, splitOn0_append_nuls,
        splitOn0_no_nul path hnonul]
  simp [h2]

/-- C6 witness: the folder of the spec example, resolved and returned. -/
theorem C6_folder_success_witness :
    (select_items ⟨some 1, true, "C:\\SelectedFolder".data, false, [], 0⟩
        "folder" 32).ret = .ok ["C:\\SelectedFolder".data]
    ∧ (select_items ⟨some 1, true, "C:\\SelectedFolder".data, false, [], 0⟩
        "folder" 32).osTrace.count OSCall.coTaskMemFree = 1 :=
  C6_folder_success ⟨some 1, true, "C:\\SelectedFolder".data, false, [], 0⟩ 32 1
    "C:\\SelectedFolder".data (by decide) rfl rfl (by decide) (by decide)

/-- C9: the boolean returned by `SHGetPathFromIDListW` is discarded: for
any non-NULL PIDL the result is a one-element list of whatever text
precedes the first NUL in the buffer, identical for each value of that
boolean, and `CommDlgExtendedError` is never invoked on a folder-mode
path. -/
theorem C9_shgetpath_ignored (os : OSBehavior) (bs : Int) (p : Nat) (hbs : 0 ≤ bs) :
    OSCall.commDlgExtErr ∉ (select_items os "folder" bs).osTrace
    ∧ (os.shBrowseResult = some p →
        (select_items os "folder" bs).ret
          = .ok [(bufferSlice bs.toNat os.folderWrite).takeWhile
                   (fun c => decide (c ≠ NUL))]
        ∧ ∀ b : Bool,
            (select_items { os with shGetPathRet := b } "folder" bs).ret
              = (select_items os "folder" bs).ret) := by
  refine ⟨?_, fun hp => ⟨?_, fun b => ?_⟩⟩
  · rw [select_items_folder_eval os bs hbs]
    cases os.shBrowseResult <;> simp
  · rw [select_items_folder_eval os bs hbs, hp, headD_splitOn0]
  · rw [select_items_folder_eval os bs hbs,
        select_items_folder_eval { os with shGetPathRet := b } bs hbs]

/-- C9 witness: a PIDL whose resolution writes nothing readable, leaving
the empty string as the single returned path. -/
theorem C9_shgetpath_ignored_witness :
    OSCall.commDlgExtErr
        ∉ (select_items ⟨some 1, true, [], false, [], 0⟩ "folder" 4).osTrace
    ∧ (select_items ⟨some 1, true, [], false, [], 0⟩ "folder" 4).ret = .ok [[]]
    ∧ (select_items ⟨some 1, false, [], false, [], 0⟩ "folder" 4).ret
        = (select_items ⟨some 1, true, [], false, [], 0⟩ "folder" 4).ret := by
  have h := C9_shgetpath_ignored ⟨some 1, true, [], false, [], 0⟩ 4 1 (by decide)
  refine ⟨h.1, ?_, (h.2 rfl).2 false⟩
  rw [(h.2 rfl).1]
  decide

/-- C10: the buffer is allocated before any mode dispatch, so a negative
`buffer_size` fails with the allocation `ValueError` for every mode,
valid or invalid, with no native call made. -/
theorem C10_alloc_first (os : OSBehavior) (m : String) (bs : Int) (hbs : bs < 0) :
    (select_items os m bs).ret = .error .negLengthValueError
      ∧ (select_items os m bs).osTrace = [] := by
  rw [select_items_neg_size os m bs hbs]
  exact ⟨rfl, rfl⟩

/-- C10 witness: a valid and an invalid mode, both with size -1. -/
theorem C10_alloc_first_witness :
    (select_items ⟨none, false, [], false, [], 0⟩ "folder" (-1)).ret
        = .error .negLengthValueError
    ∧ (select_items ⟨none, false, [], false, [], 0⟩ "invalid" (-1)).ret
        = .error .negLengthValueError
    ∧ (select_items ⟨none, false, [], false, [], 0⟩ "invalid" (-1)).osTrace = [] :=
  ⟨(C10_alloc_first ⟨none, false, [], false, [], 0⟩ "folder" (-1) (by decide)).1,
   (C10_alloc_first ⟨none, false, [], false, [], 0⟩ "invalid" (-1) (by decide)).1,
   (C10_alloc_first ⟨none, false, [], false, [], 0⟩ "invalid" (-1) (by decide)).2⟩

example : splitOn0 "a\x00\x00b".data = ["a".data, [], "b".data] := by decide

example : os_path_join "C:\\Dir".data "a.txt".data = "C:\\Dir\\a.txt".data := by decide
